import Mathlib

/-!
Verification of the health/archival monitoring state machine and the
worker-selection algorithm of the multiclient actor
(`src/multiclient/multi_client_actor.cpp`).

Shallow embedding conventions:
* `WorkerInfo` mirrors the per-worker record mutated by the actor
  (`is_alive`, `is_waiting_for_update`, `last_mc_seqno`,
  `check_retry_count`, `check_retry_after`, `is_archival`).
* Timestamps are natural numbers (seconds); `td::Timestamp::in(10.0)`
  at current time `now` becomes `now + 10`, and `is_in_past()` becomes
  `t ≤ now`.
* The process-wide random engine is passed explicitly: a `rng : Nat`
  seed for `get_random_index` (reduced mod the range size) and a
  `shuffle : List Nat → List Nat` function for `std::shuffle`
  (`std::shuffle` always produces a permutation of its input, which is
  the hypothesis used by the randomized theorems).
* A `CHECK(...)` failure aborts the process; `select_workers` is
  therefore embedded with result type `Option (List Nat)`, where
  `none` is an assertion failure and `some l` a normal return.
-/

namespace Multiclient

/-- Routing policy of a request (`RequestMode` in `request.h`, used by
`select_workers`). -/
inductive RequestMode where
  | Broadcast
  | Single
  | Multiple
deriving DecidableEq, Repr

/-- Per-worker health/archival record (`MultiClientActor::WorkerInfo`), the
state mutated by `check_alive` / `on_alive_checked` / `on_archival_checked`.
The opaque actor handle `id` is omitted: no monitored transition reads it. -/
structure WorkerInfo where
  is_alive : Bool := false
  is_waiting_for_update : Bool := false
  last_mc_seqno : Int := -1
  check_retry_count : Nat := 0
  check_retry_after : Option Nat := none
  is_archival : Bool := false
deriving DecidableEq, Repr

/-- Selection parameters supplied by the caller (`RequestParameters`). -/
structure RequestParameters where
  mode : RequestMode
  archival : Bool := false
  lite_server_indexes : Option (List Nat) := none
  clients_number : Option Nat := none
deriving DecidableEq, Repr

/-- Read of `workers_[i].is_alive` through an index (false out of range;
`select_workers` only evaluates it in range). -/
def wAlive (ws : List WorkerInfo) (i : Nat) : Bool :=
  (ws[i]?.map WorkerInfo.is_alive).getD false

/-- Read of `workers_[i].is_archival` through an index. -/
def wArchival (ws : List WorkerInfo) (i : Nat) : Bool :=
  (ws[i]?.map WorkerInfo.is_archival).getD false

/-- The candidate construction at the top of `select_workers`:
`iota(0, workers_.size())` filtered by `is_alive`, then by
`options.archival == true ? is_archival : true`. -/
def candidate_list (ws : List WorkerInfo) (archivalRequired : Bool) : List Nat :=
  ((List.range ws.length).filter (fun i => wAlive ws i)).filter
    (fun i => if archivalRequired then wArchival ws i else true)

/-- The explicit-index loop of the `Multiple` branch, transcribed verbatim:
for each requested `index`, `if (!result_set.contains(index))
result_set.erase(index);`. The `std::set` built from the sorted duplicate-free
candidate vector is represented by that list itself (same iteration order). -/
def eraseAbsent (base : List Nat) (idxs : List Nat) : List Nat :=
  idxs.foldl (fun s index => if s.contains index then s else s.erase index) base

/-- Embedding of `MultiClientActor::select_workers`. `rng` stands for the state of
`kRandomEngine` consumed by `get_random_index(0, result.size() - 1)` (an
arbitrary in-range draw, modelled as `rng % result.length`); `shuffle` stands
for `std::shuffle` with the engine's state at the call. `none` models a
`CHECK` failure. -/
def select_workers (rng : Nat) (shuffle : List Nat → List Nat)
    (ws : List WorkerInfo) (options : RequestParameters) : Option (List Nat) :=
  let result := candidate_list ws options.archival
  if result.isEmpty then
    some []
  else
    match options.mode with
    | RequestMode.Broadcast => some result
    | RequestMode.Single =>
      match options.lite_server_indexes with
      | some idxs =>
        if ¬ idxs.isEmpty ∧ idxs.length = 1 then
          some (if result.contains idxs.headI then [idxs.headI] else [])
        else
          none
      | none => some [result.getD (rng % result.length) 0]
    | RequestMode.Multiple =>
      if options.clients_number.isSome ∧ options.lite_server_indexes.isSome then
        none
      else if ¬ (options.clients_number.isSome ∨ options.lite_server_indexes.isSome) then
        none
      else
        match options.lite_server_indexes with
        | some idxs => some (eraseAbsent result idxs)
        | none =>
          let shuffled := shuffle result
          some (shuffled.take (min (options.clients_number.getD 0) shuffled.length))

/-- Test `td::Timestamp::is_in_past()` of an optional timestamp at current time
`now`; `false` when unset, matching `has_value() && is_in_past()`. -/
def timestampInPast (t : Option Nat) (now : Nat) : Bool :=
  match t with
  | some x => decide (x ≤ now)
  | none => false

/-- The body of the `check_alive` loop for one worker, given the configured
ceiling `maxErr` (`config_.max_consecutive_alive_check_errors`) and the
current time `now`. Returns the updated record and whether an alive-probe
(`blocks_getMasterchainInfo`) was issued for this worker on this tick. -/
def check_alive_worker (maxErr now : Nat) (w : WorkerInfo) : WorkerInfo × Bool :=
  if w.is_waiting_for_update then
    (w, false)
  else if w.is_alive = false then
    if maxErr < w.check_retry_count then
      (w, false)
    else if timestampInPast w.check_retry_after now then
      ({ w with check_retry_count := w.check_retry_count + 1,
                check_retry_after := none,
                is_waiting_for_update := true }, true)
    else if w.check_retry_count ≠ 0 then
      (w, false)
    else
      ({ w with is_waiting_for_update := true }, true)
  else
    ({ w with is_waiting_for_update := true }, true)

/-- Embedding of `MultiClientActor::check_alive`: one scheduler tick of the Health
Monitor over the whole registry. The loop body touches only
`workers_[worker_index]`, so the pass is the independent per-worker step
applied at every index. Returns the updated registry and the ascending list
of worker indices probed on this tick. -/
def check_alive (maxErr now : Nat) (ws : List WorkerInfo) :
    List WorkerInfo × List Nat :=
  (ws.map (fun w => (check_alive_worker maxErr now w).1),
   (List.range ws.length).filter (fun i =>
     match ws[i]? with
     | some w => (check_alive_worker maxErr now w).2
     | none => false))

/-- Embedding of `MultiClientActor::on_alive_checked`: completion of an alive-probe at
time `now`; `last_mc_seqno = none` is a failed probe. `kRetryInterval` is
10 seconds. -/
def on_alive_checked (now : Nat) (w : WorkerInfo) (last_mc_seqno : Option Int) :
    WorkerInfo :=
  let is_alive := last_mc_seqno.isSome
  let seqnoValue := last_mc_seqno.getD (-1)
  let w1 := { w with is_alive := is_alive, is_waiting_for_update := false }
  if is_alive then
    { w1 with last_mc_seqno := seqnoValue, check_retry_count := 0 }
  else
    { w1 with check_retry_after := some (now + 10) }

/-- Embedding of `MultiClientActor::check_archival`: the indices to which an archival
capability probe (`blocks_lookupBlock` of the fixed early block) is sent on
an archival-monitor pass — every index whose worker is alive, in order. -/
def check_archival_probes (ws : List WorkerInfo) : List Nat :=
  (List.range ws.length).filter (fun i => wAlive ws i)

/-- Embedding of `MultiClientActor::on_archival_checked`. -/
def on_archival_checked (w : WorkerInfo) (is_archival : Bool) : WorkerInfo :=
  { w with is_archival := is_archival }

/-- One step of the health-check loop as observed by a single worker record:
either a scheduler tick (at an arbitrary time) or the completion of an
outstanding alive-probe (at an arbitrary time, with an arbitrary result).
A completion requires `is_waiting_for_update = true`: probes are issued only
when the flag is off, the flag is set at issuance and cleared exactly at
completion, and per-worker issuance/completion is strictly ordered, so a
completion event can only be pending while the flag is on. -/
inductive HealthStep (maxErr : Nat) : WorkerInfo → WorkerInfo → Prop where
  | tick (now : Nat) (w : WorkerInfo) :
      HealthStep maxErr w (check_alive_worker maxErr now w).1
  | complete (now : Nat) (res : Option Int) (w : WorkerInfo)
      (h : w.is_waiting_for_update = true) :
      HealthStep maxErr w (on_alive_checked now w res)

/-- A worker that has just been probed successfully: alive, no retry state. -/
def aliveWorker : WorkerInfo :=
  { is_alive := true, is_waiting_for_update := false, last_mc_seqno := 100,
    check_retry_count := 0, check_retry_after := none, is_archival := false }

/-- A worker that has never answered: dead, no retry state. -/
def deadWorker : WorkerInfo :=
  { is_alive := false, is_waiting_for_update := false, last_mc_seqno := -1,
    check_retry_count := 0, check_retry_after := none, is_archival := false }

/-- An alive worker with its first alive-probe in flight and
`check_retry_count = 0` (the state right before a first failure). -/
def firstFailWorker : WorkerInfo :=
  { is_alive := true, is_waiting_for_update := true, last_mc_seqno := 5,
    check_retry_count := 0, check_retry_after := none, is_archival := false }

/-- An alive worker with a probe in flight and a nonzero retry count. -/
def retryWorker : WorkerInfo :=
  { is_alive := true, is_waiting_for_update := true, last_mc_seqno := 5,
    check_retry_count := 1, check_retry_after := none, is_archival := false }

/-- A dead worker with a probe in flight and a stale retry deadline. -/
def pendingDeadlineWorker : WorkerInfo :=
  { is_alive := false, is_waiting_for_update := true, last_mc_seqno := -1,
    check_retry_count := 0, check_retry_after := some 42, is_archival := false }

/-- A dead worker past the retry ceiling (for ceiling 3) with no probe in
flight: the permanently excluded state. -/
def excludedWorker : WorkerInfo :=
  { is_alive := false, is_waiting_for_update := false, last_mc_seqno := -1,
    check_retry_count := 4, check_retry_after := some 20, is_archival := false }

/-- A dead worker past the retry ceiling (for ceiling 3) whose retry probe is
still in flight. -/
def inflightExcluded : WorkerInfo :=
  { is_alive := false, is_waiting_for_update := true, last_mc_seqno := -1,
    check_retry_count := 4, check_retry_after := none, is_archival := false }

/- ------------------------------------------------------------------ -/
/- Helper lemmas -/
/- ------------------------------------------------------------------ -/

theorem candidate_list_sorted (ws : List WorkerInfo) (a : Bool) :
    List.Sorted (· < ·) (candidate_list ws a) :=
  ((List.sorted_lt_range ws.length).filter _).filter _

theorem candidate_list_nodup (ws : List WorkerInfo) (a : Bool) :
    (candidate_list ws a).Nodup :=
  ((List.nodup_range ws.length).filter _).filter _

theorem candidate_list_mem (ws : List WorkerInfo) (a : Bool) (i : Nat) :
    i ∈ candidate_list ws a ↔
      i < ws.length ∧ wAlive ws i = true ∧ (a = true → wArchival ws i = true) := by
  unfold candidate_list
  cases a <;> (simp [List.mem_filter, List.mem_range]; try tauto)

theorem eraseAbsent_step (s : List Nat) (x : Nat) :
    (if s.contains x then s else s.erase x) = s := by
  by_cases h : s.contains x
  · simp [h]
  · have hx : x ∉ s := by
      intro hm
      exact h (by simpa [List.elem_iff] using hm)
    simp [h, List.erase_of_not_mem hx]

theorem eraseAbsent_eq (base idxs : List Nat) : eraseAbsent base idxs = base := by
  induction idxs generalizing base with
  | nil => rfl
  | cons x xs ih =>
    unfold eraseAbsent at ih ⊢
    rw [List.foldl_cons, eraseAbsent_step]
    exact ih base

theorem check_alive_worker_backoff (maxErr t now : Nat) (w : WorkerInfo)
    (hcount : w.check_retry_count ≠ 0) (hnow : now < t + 10) :
    (check_alive_worker maxErr now (on_alive_checked t w none)).2 = false := by
  have hts : ¬ (t + 10 ≤ now) := by omega
  by_cases hmax : maxErr < w.check_retry_count
  · simp [on_alive_checked, check_alive_worker, timestampInPast, hmax]
  · simp [on_alive_checked, check_alive_worker, timestampInPast, hmax, hts, hcount]

theorem excluded_tick_unchanged (maxErr now : Nat) (w : WorkerInfo)
    (ha : w.is_alive = false) (hc : maxErr < w.check_retry_count)
    (hw : w.is_waiting_for_update = false) :
    check_alive_worker maxErr now w = (w, false) := by
  unfold check_alive_worker
  simp [ha, hw, hc]

theorem excluded_step_eq (maxErr : Nat) (w v : WorkerInfo)
    (ha : w.is_alive = false) (hc : maxErr < w.check_retry_count)
    (hw : w.is_waiting_for_update = false)
    (hs : HealthStep maxErr w v) : v = w := by
  cases hs with
  | tick now _ => rw [excluded_tick_unchanged maxErr now w ha hc hw]
  | complete now res _ h => simp [hw] at h

/- ------------------------------------------------------------------ -/
/- Claim theorems -/
/- ------------------------------------------------------------------ -/

/-- C9: on an archival-monitor pass, an archival capability probe is issued
to worker `i` if and only if `i` is a registry index whose worker is
currently marked alive; a dead worker is never sent an archival probe. -/
theorem archival_probe_iff_alive (ws : List WorkerInfo) (i : Nat) :
    i ∈ check_archival_probes ws ↔ i < ws.length ∧ wAlive ws i = true := by
  simp [check_archival_probes, List.mem_filter, List.mem_range]

/-- C3 counterexample: a successful alive-probe completion on a worker with a
pending retry deadline (`check_retry_after = some 42`) leaves the deadline
set — the claim that success clears any pending `retryNotBefore` is false. -/
theorem success_leaves_retry_deadline :
    (on_alive_checked 50 pendingDeadlineWorker (some 7)).is_alive = true ∧
    (on_alive_checked 50 pendingDeadlineWorker (some 7)).check_retry_count = 0 ∧
    (on_alive_checked 50 pendingDeadlineWorker (some 7)).check_retry_after = some 42 ∧
    (on_alive_checked 50 pendingDeadlineWorker (some 7)).check_retry_after ≠ none := by
  decide

/-- C3 amended: a successful alive-probe completion sets `is_alive = true`,
stores the returned seqno, resets `check_retry_count` to 0, and clears
`is_waiting_for_update`; the `check_retry_after` deadline is left unchanged
(not cleared). -/
theorem on_alive_checked_success (now : Nat) (w : WorkerInfo) (v : Int) :
    (on_alive_checked now w (some v)).is_alive = true ∧
    (on_alive_checked now w (some v)).last_mc_seqno = v ∧
    (on_alive_checked now w (some v)).check_retry_count = 0 ∧
    (on_alive_checked now w (some v)).is_waiting_for_update = false ∧
    (on_alive_checked now w (some v)).check_retry_after = w.check_retry_after :=
  ⟨rfl, rfl, rfl, rfl, rfl⟩

/-- C1: evaluation of the code at a failing input for the claim. Workers 0
and 1 are both alive; `Multiple` with explicit indices `[0]` is required by
the claim to return `[0]`, but the code returns the whole candidate set
`[0, 1]`: the erase loop in the `Multiple` branch removes only elements it
has just found to be absent, so it never removes anything and the requested
index set is ignored. -/
theorem multiple_explicit_ignores_requested :
    select_workers 0 (fun l => l) [aliveWorker, aliveWorker]
      ⟨RequestMode.Multiple, false, some [0], none⟩ = some [0, 1] := by
  decide

/-- C2 counterexample: a first probe failure at time 0 (worker was alive,
`check_retry_count = 0`) sets the backoff deadline to 10, yet the scheduler
tick at time 1 — well before the deadline — issues a new alive-probe for the
worker, because the skip applies only when `check_retry_count ≠ 0`. -/
theorem backoff_ignored_on_first_failure :
    (on_alive_checked 0 firstFailWorker none).check_retry_after = some 10 ∧
    (on_alive_checked 0 firstFailWorker none).check_retry_count = 0 ∧
    (1 : Nat) < 10 ∧
    0 ∈ (check_alive 3 1 [on_alive_checked 0 firstFailWorker none]).2 := by
  decide

/-- C4 counterexample: with an empty candidate set (the only worker is dead),
`Multiple` invoked with BOTH `explicitIndices` and `requestedCount` set — a
contract violation — returns the empty result normally instead of stopping
with an assertion failure: the empty-candidate early return precedes the
`CHECK`s. -/
theorem contract_violation_empty_returns_normally :
    select_workers 0 (fun l => l) [deadWorker]
      ⟨RequestMode.Multiple, false, some [0], some 1⟩ = some [] := by
  decide

/-- C2 amended: after an alive-probe for a worker completes with failure at
time `t` (setting the backoff deadline `t + 10`), provided the worker's
`check_retry_count` was nonzero, no scheduler tick strictly before the
deadline issues a new alive-probe for that worker. (When the count is 0 —
the first failure after the worker was alive — the code does re-probe before
the deadline; see the counterexample.) -/
theorem no_reprobe_before_deadline_after_retry (maxErr t now : Nat)
    (w : WorkerInfo) (ws : List WorkerInfo) (i : Nat)
    (hw : ws[i]? = some (on_alive_checked t w none))
    (hcount : w.check_retry_count ≠ 0) (hnow : now < t + 10) :
    i ∉ (check_alive maxErr now ws).2 := by
  intro hmem
  unfold check_alive at hmem
  rw [List.mem_filter] at hmem
  have hb := hmem.2
  rw [hw] at hb
  simp only [check_alive_worker_backoff maxErr t now w hcount hnow] at hb
  exact Bool.false_ne_true hb

/-- Witness for the amended C2 at a concrete input: ceiling 3, failure at
time 0 on a worker with retry count 1, tick at time 5. -/
theorem no_reprobe_before_deadline_witness :
    0 ∉ (check_alive 3 5 [on_alive_checked 0 retryWorker none]).2 :=
  no_reprobe_before_deadline_after_retry 3 0 5 retryWorker
    [on_alive_checked 0 retryWorker none] 0 rfl (by decide) (by decide)

/-- C5: `Broadcast` returns exactly the candidate list — the ascending,
duplicate-free sequence of indices `i` with `alive[i] = true`, further
restricted to `archival[i] = true` when the archival requirement is set;
every returned index satisfies the filters and every qualifying index is
returned (so the result is empty exactly when no worker qualifies). -/
theorem select_broadcast_exact (rng : Nat) (shuffle : List Nat → List Nat)
    (ws : List WorkerInfo) (a : Bool) (idxs : Option (List Nat))
    (cn : Option Nat) :
    select_workers rng shuffle ws ⟨RequestMode.Broadcast, a, idxs, cn⟩ =
      some (candidate_list ws a) ∧
    List.Sorted (· < ·) (candidate_list ws a) ∧
    ∀ i, i ∈ candidate_list ws a ↔
      (i < ws.length ∧ wAlive ws i = true ∧ (a = true → wArchival ws i = true)) := by
  refine ⟨?_, candidate_list_sorted ws a, fun i => candidate_list_mem ws a i⟩
  unfold select_workers
  by_cases h : (candidate_list ws a).isEmpty
  · have h0 : candidate_list ws a = [] := List.isEmpty_iff.mp h
    simp [h0]
  · simp [h]

/-- C6: `Single` with an explicit index set `[i]` returns the singleton
`[i]` when `i` is a candidate (alive, and archival when required) and the
empty list otherwise — the requested node is never substituted. -/
theorem select_single_explicit (rng : Nat) (shuffle : List Nat → List Nat)
    (ws : List WorkerInfo) (a : Bool) (i : Nat) (cn : Option Nat) :
    select_workers rng shuffle ws ⟨RequestMode.Single, a, some [i], cn⟩ =
      some (if i ∈ candidate_list ws a then [i] else []) := by
  unfold select_workers
  by_cases h : (candidate_list ws a).isEmpty
  · have h0 : candidate_list ws a = [] := List.isEmpty_iff.mp h
    simp [h0]
  · by_cases hm : i ∈ candidate_list ws a
    · simp [h, hm, List.headI, List.elem_iff]
    · simp [h, hm, List.headI, List.elem_iff]

/-- C7: `Multiple` with `requestedCount = n` (no explicit indices) returns,
for every permutation the random engine may produce, exactly
`min n |candidates|` pairwise-distinct indices, each a member of the
candidate set (shuffle-and-truncate). -/
theorem select_multiple_count (rng : Nat) (shuffle : List Nat → List Nat)
    (hshuffle : ∀ l, (shuffle l).Perm l)
    (ws : List WorkerInfo) (a : Bool) (n : Nat) :
    ∃ l, select_workers rng shuffle ws ⟨RequestMode.Multiple, a, none, some n⟩ =
        some l ∧
      l.length = min n (candidate_list ws a).length ∧
      l.Nodup ∧ ∀ i ∈ l, i ∈ candidate_list ws a := by
  by_cases h : (candidate_list ws a).isEmpty
  · have h0 : candidate_list ws a = [] := List.isEmpty_iff.mp h
    refine ⟨[], ?_, ?_, List.nodup_nil, ?_⟩
    · unfold select_workers
      simp [h0]
    · simp [h0]
    · simp
  · have hp := hshuffle (candidate_list ws a)
    refine ⟨(shuffle (candidate_list ws a)).take
        (min n (shuffle (candidate_list ws a)).length), ?_, ?_, ?_, ?_⟩
    · unfold select_workers
      simp [h]
    · rw [List.length_take, hp.length_eq]
      omega
    · exact (List.take_sublist _ _).nodup (hp.symm.nodup (candidate_list_nodup ws a))
    · intro i hi
      exact hp.mem_iff.mp (List.take_subset _ _ hi)

/-- Witness for C7 at a concrete input: three alive workers, `n = 2`, with
list reversal as the permutation drawn by the engine. -/
theorem select_multiple_count_witness :
    ∃ l, select_workers 7 List.reverse [aliveWorker, aliveWorker, aliveWorker]
        ⟨RequestMode.Multiple, false, none, some 2⟩ = some l ∧
      l.length = min 2 (candidate_list [aliveWorker, aliveWorker, aliveWorker] false).length ∧
      l.Nodup ∧ ∀ i ∈ l, i ∈ candidate_list [aliveWorker, aliveWorker, aliveWorker] false :=
  select_multiple_count 7 List.reverse (fun l => List.reverse_perm l)
    [aliveWorker, aliveWorker, aliveWorker] false 2

/-- C4 amended: when the candidate set is non-empty, invoking
`select_workers` with `Multiple` and both or neither of
`explicitIndices`/`requestedCount` set, or with `Single` and an explicit
index set whose size is not one, fails the corresponding `CHECK` (modelled
as `none`) instead of returning a normal result. (With an empty candidate
set the function returns the empty result before the contract is checked;
see the counterexample.) -/
theorem select_contract_violation (rng : Nat) (shuffle : List Nat → List Nat)
    (ws : List WorkerInfo) (o : RequestParameters)
    (hne : ¬ (candidate_list ws o.archival).isEmpty)
    (hviol : (o.mode = RequestMode.Multiple ∧
        ((o.clients_number.isSome ∧ o.lite_server_indexes.isSome) ∨
         (o.clients_number = none ∧ o.lite_server_indexes = none))) ∨
      (o.mode = RequestMode.Single ∧
        ∃ ix, o.lite_server_indexes = some ix ∧ ix.length ≠ 1)) :
    select_workers rng shuffle ws o = none := by
  obtain ⟨mode, a, idxs, cn⟩ := o
  simp only at hne
  unfold select_workers
  rcases hviol with ⟨hm, hv⟩ | ⟨hm, ix, hix, hlen⟩
  · cases hm
    rcases hv with ⟨hc, hi⟩ | ⟨hc, hi⟩
    · simp only at hc hi
      simp [hne, hc, hi]
    · simp only at hc hi
      simp [hne, hc, hi]
  · cases hm
    simp only at hix
    subst hix
    simp [hne, hlen]

/-- Witness for the amended C4 at a concrete input: one alive worker
(non-empty candidate set), `Multiple` with both options set. -/
theorem select_contract_violation_witness :
    select_workers 0 (fun l => l) [aliveWorker]
      ⟨RequestMode.Multiple, false, some [0], some 1⟩ = none :=
  select_contract_violation 0 (fun l => l) [aliveWorker]
    ⟨RequestMode.Multiple, false, some [0], some 1⟩ (by decide)
    (Or.inl ⟨rfl, Or.inl ⟨rfl, rfl⟩⟩)

/-- C8 counterexample: a worker that is dead with `check_retry_count`
strictly above the ceiling (4 > 3) — satisfying the claim's condition — but
whose retry probe is still in flight is resurrected by a successful
completion (a legitimate step of the health-check loop), and the very next
tick issues a new alive-probe for it: the exclusion is not unconditionally
permanent. -/
theorem excluded_claim_cex :
    inflightExcluded.is_alive = false ∧
    3 < inflightExcluded.check_retry_count ∧
    HealthStep 3 inflightExcluded (on_alive_checked 0 inflightExcluded (some 100)) ∧
    (check_alive_worker 3 1 (on_alive_checked 0 inflightExcluded (some 100))).2 = true :=
  ⟨rfl, by decide, HealthStep.complete 0 (some 100) inflightExcluded rfl, rfl⟩

/-- C8 amended: for a worker that is dead, has `check_retry_count` strictly
above the ceiling, AND has no probe in flight, the exclusion is permanent:
every sequence of health-check-loop steps (ticks at arbitrary times and
completions of outstanding probes) leaves the record unchanged, and no tick
ever issues a probe for it. -/
theorem excluded_worker_permanent (maxErr : Nat) (w v : WorkerInfo)
    (ha : w.is_alive = false) (hc : maxErr < w.check_retry_count)
    (hw : w.is_waiting_for_update = false)
    (hs : Relation.ReflTransGen (HealthStep maxErr) w v) :
    v = w ∧ ∀ now, check_alive_worker maxErr now v = (v, false) := by
  have hv : v = w := by
    induction hs with
    | refl => rfl
    | tail _ h2 ih =>
      subst ih
      exact excluded_step_eq maxErr _ _ ha hc hw h2
  subst hv
  exact ⟨rfl, fun now => excluded_tick_unchanged maxErr now v ha hc hw⟩

/-- Witness for the amended C8 at a concrete input: ceiling 3, the excluded
worker, and a one-step chain consisting of a tick at time 100. -/
theorem excluded_worker_permanent_witness :
    (check_alive_worker 3 100 excludedWorker).1 = excludedWorker ∧
    check_alive_worker 3 200 (check_alive_worker 3 100 excludedWorker).1 =
      ((check_alive_worker 3 100 excludedWorker).1, false) :=
  ⟨(excluded_worker_permanent 3 excludedWorker
      (check_alive_worker 3 100 excludedWorker).1 rfl (by decide) rfl
      (Relation.ReflTransGen.single (HealthStep.tick 100 excludedWorker))).1,
   (excluded_worker_permanent 3 excludedWorker
      (check_alive_worker 3 100 excludedWorker).1 rfl (by decide) rfl
      (Relation.ReflTransGen.single (HealthStep.tick 100 excludedWorker))).2 200⟩

/-- C10: whenever `select_workers` returns normally (no `CHECK` failure),
every returned index — in all three modes — refers to a registry slot whose
worker is alive, and archival when the archival requirement is set; the
output is always a subset of the candidate set. Quantified over any
permutation the random engine may produce for the shuffle. -/
theorem select_workers_members_alive (rng : Nat) (shuffle : List Nat → List Nat)
    (hshuffle : ∀ l, (shuffle l).Perm l)
    (ws : List WorkerInfo) (o : RequestParameters) (l : List Nat)
    (hres : select_workers rng shuffle ws o = some l) :
    ∀ i ∈ l, i < ws.length ∧ wAlive ws i = true ∧
      (o.archival = true → wArchival ws i = true) := by
  have key : ∀ i ∈ l, i ∈ candidate_list ws o.archival := by
    obtain ⟨mode, a, idxs, cn⟩ := o
    simp only at hres ⊢
    unfold select_workers at hres
    by_cases hemp : (candidate_list ws a).isEmpty
    · simp [hemp] at hres
      subst hres
      intro i hi
      simp at hi
    · simp only [hemp, if_false, Bool.false_eq_true] at hres
      cases mode with
      | Broadcast =>
        simp only [Option.some.injEq] at hres
        subst hres
        exact fun i hi => hi
      | Single =>
        cases idxs with
        | none =>
          simp only [Option.some.injEq] at hres
          subst hres
          intro i hi
          simp only [List.mem_singleton] at hi
          subst hi
          have hlen : 0 < (candidate_list ws a).length := by
            rcases List.isEmpty_iff_length_eq_zero.not.mp hemp with h
            omega
          have hlt : rng % (candidate_list ws a).length < (candidate_list ws a).length :=
            Nat.mod_lt _ hlen
          rw [List.getD_eq_getElem?_getD, List.getElem?_eq_getElem hlt]
          exact List.getElem_mem hlt
        | some ix =>
          simp at hres
          obtain ⟨-, hl⟩ := hres
          subst hl
          intro i hi
          by_cases hm : ix.headI ∈ candidate_list ws a
          · rw [if_pos hm, List.mem_singleton] at hi
            subst hi
            exact hm
          · rw [if_neg hm] at hi
            simp at hi
      | Multiple =>
        cases idxs with
        | some ix =>
          by_cases hcn : cn.isSome
          · simp [hcn] at hres
          · simp only [hcn, Option.isSome_some, and_true, false_and, if_false,
              Bool.false_eq_true, or_true, not_true, Option.some.injEq] at hres
            rw [eraseAbsent_eq] at hres
            subst hres
            exact fun i hi => hi
        | none =>
          by_cases hcn : cn.isSome
          · simp only [hcn, Option.isSome_none, and_false, if_false,
              Bool.false_eq_true, or_false, if_true, not_true,
              Option.some.injEq] at hres
            rcases Option.isSome_iff_exists.mp hcn with ⟨n, hn⟩
            subst hn
            simp only [Option.getD_some] at hres
            subst hres
            intro i hi
            exact (hshuffle (candidate_list ws a)).mem_iff.mp
              (List.take_subset _ _ hi)
          · simp [hcn] at hres
  intro i hi
  exact (candidate_list_mem ws o.archival i).mp (key i hi)

/-- Witness for C10 at a concrete input: one alive worker, `Broadcast`,
identity shuffle, result `[0]`, instantiated at returned index 0. -/
theorem select_workers_members_alive_witness :
    0 < ([aliveWorker] : List WorkerInfo).length ∧ wAlive [aliveWorker] 0 = true :=
  ⟨(select_workers_members_alive 0 (fun l => l) (fun l => List.Perm.refl l)
      [aliveWorker] ⟨RequestMode.Broadcast, false, none, none⟩ [0] (by decide)
      0 (by decide)).1,
   (select_workers_members_alive 0 (fun l => l) (fun l => List.Perm.refl l)
      [aliveWorker] ⟨RequestMode.Broadcast, false, none, none⟩ [0] (by decide)
      0 (by decide)).2.1⟩

end Multiclient
